import Mathlib

/-!
Shallow embedding of the process-data acquisition layer of psutil:
the Windows backend module (src/unnamed/part_000) and the macOS helper
src/psutil/arch/osx/process_info.c.

Native kernel calls are modelled as oracles supplied through small
environment structures.  Each embedded operation returns its normalized
outcome together with a trace of the native calls it issued, of the
buffer sizes it requested, or of the buffer indices it read, so that
statements about liveness checks, retry protocols and buffer bounds can
be made about the code itself.
-/

namespace PsutilSpec

/-- Normalized outcome taxonomy surfaced by the layer (spec section 7),
with one constructor for each concrete Python-level error the two
embedded backends raise.  fatalOS carries an errno or GetLastError code
(PyErr_SetFromOSErrnoWithSyscall / PyErr_SetFromWindowsErr); fatalNT
carries an NTSTATUS (psutil_SetFromNTStatusErr). -/
inductive Outcome where
  | noSuchProcess
  | accessDenied
  | timeout
  | waitAbandoned
  | fatalOS (code : Nat)
  | fatalNT (status : Nat)
  | noMemory
  | runtimeNoPids
  | runtimeCollectPids
  | runtimeWsetTooLarge
  deriving DecidableEq

/-- errno EINVAL. -/
def EINVAL : Nat := 22

/-- errno EIO. -/
def EIO : Nat := 5

/-- errno ENOMEM. -/
def ENOMEM : Nat := 12

/-- Windows GetLastError code ERROR_ACCESS_DENIED. -/
def ERROR_ACCESS_DENIED : Nat := 5

/-- Windows GetLastError code ERROR_INVALID_PARAMETER. -/
def ERROR_INVALID_PARAMETER : Nat := 87

/-- WaitForSingleObject return value WAIT_OBJECT_0. -/
def WAIT_OBJECT_0 : Nat := 0

/-- WaitForSingleObject return value WAIT_ABANDONED (0x80). -/
def WAIT_ABANDONED : Nat := 128

/-- WaitForSingleObject return value WAIT_TIMEOUT (0x102). -/
def WAIT_TIMEOUT : Nat := 258

/-- WaitForSingleObject return value WAIT_FAILED ((DWORD)-1). -/
def WAIT_FAILED : Nat := 4294967295

/-- NTSTATUS STATUS_INFO_LENGTH_MISMATCH (0xC0000004). -/
def STATUS_INFO_LENGTH_MISMATCH : Nat := 3221225476

/-- NTSTATUS STATUS_ACCESS_DENIED (0xC0000022). -/
def STATUS_ACCESS_DENIED : Nat := 3221225506

/-- NT_SUCCESS: an NTSTATUS is a success when it is nonnegative as a
signed 32-bit value, that is below 0x80000000. -/
def ntSuccess (s : Nat) : Bool := decide (s < 2147483648)

/-! ### Memory accounting: psutil_proc_memory_uss (part_000, lines 515-538) -/

/-- One working-set entry as read out of MEMORY_WORKING_SET_INFORMATION:
the Shared flag and the ShareCount field. -/
structure WorkingSetBlock where
  shared : Bool
  shareCount : Nat
  deriving DecidableEq

/-- Counting loop of psutil_proc_memory_uss: walk the entry table and
count an entry as private exactly when (!Shared || ShareCount <= 1),
accumulating NumberOfPrivatePages. -/
def psutil_proc_memory_uss (entries : List WorkingSetBlock) : Nat :=
  entries.foldl
    (fun acc e => if e.shared = false ∨ e.shareCount ≤ 1 then acc + 1 else acc)
    0

/-! ### Error normalizers (claim C1) -/

/-- Error classification of psutil_sysctl_procargs
(arch/osx/process_info.c, lines 126-148): when the KERN_PROCARGS2 sysctl
fails, first consult the liveness check psutil_pid_exists; a dead pid is
NoSuchProcess, otherwise errno EINVAL (zombie) maps to NoSuchProcess,
errno EIO maps to AccessDenied, and any other errno is propagated. -/
def psutil_sysctl_procargs_error (pidExists : Bool) (errno : Nat) : Outcome :=
  if pidExists = false then .noSuchProcess
  else if errno = EINVAL then .noSuchProcess
  else if errno = EIO then .accessDenied
  else .fatalOS errno

/-- Error classification of psutil_proc_exe (part_000, lines 348-355):
when NtQuerySystemInformation does not succeed, consult the liveness
check psutil_pid_is_running; a dead pid is NoSuchProcess, otherwise the
NTSTATUS is propagated. -/
def psutil_proc_exe_error (pidRunning : Bool) (status : Nat) : Outcome :=
  if pidRunning = false then .noSuchProcess
  else .fatalNT status

/-- Error classification of psutil_GetProcWsetInformation (part_000,
lines 468-482): STATUS_ACCESS_DENIED is classified as AccessDenied
directly, before the liveness check; only other failing statuses consult
psutil_pid_is_running. -/
def psutil_GetProcWsetInformation_error (pidRunning : Bool) (status : Nat) :
    Outcome :=
  if status = STATUS_ACCESS_DENIED then .accessDenied
  else if pidRunning = false then .noSuchProcess
  else .fatalNT status

/-- Environment of psutil_proc_times (part_000, lines 218-263).
handleResult abstracts the external helper psutil_handle_from_pid;
timesValues is the GetProcessTimes result (user, kernel, create ticks)
or none on failure, in which case lastError is GetLastError().
pidRunning records what a fresh liveness check would report; the source
of psutil_proc_times never performs such a check, so the embedded
function does not read this field. -/
structure TimesEnv where
  handleResult : Except Outcome Unit
  timesValues : Option (Nat × Nat × Nat)
  lastError : Nat
  pidRunning : Bool

/-- psutil_proc_times (part_000, lines 218-263): acquire a handle, call
GetProcessTimes; on failure classify GetLastError() == ERROR_ACCESS_DENIED
as NoSuchProcess directly (no liveness check appears in the source) and
any other code as a raw Windows error. -/
def psutil_proc_times (env : TimesEnv) : Except Outcome (Nat × Nat × Nat) :=
  match env.handleResult with
  | .error e => .error e
  | .ok _ =>
    match env.timesValues with
    | some v => .ok v
    | none =>
      if env.lastError = ERROR_ACCESS_DENIED then .error .noSuchProcess
      else .error (.fatalOS env.lastError)

/-! ### Claim C2: unique-set-size counting rule -/

/-- Helper: the USS fold counts exactly the entries satisfying the
private-page condition, whatever the accumulator start. -/
theorem uss_foldl_eq_filter (entries : List WorkingSetBlock) (n : Nat) :
    entries.foldl
      (fun acc e => if e.shared = false ∨ e.shareCount ≤ 1 then acc + 1 else acc)
      n
    = n + (entries.filter
        (fun e => decide (e.shared = false ∨ e.shareCount ≤ 1))).length := by
  induction entries generalizing n with
  | nil => simp
  | cons e es ih =>
    by_cases h : e.shared = false ∨ e.shareCount ≤ 1
    · simp [List.foldl_cons, h, ih]
      omega
    · simp [List.foldl_cons, h, ih]

/-- C2: the unique-set-size computation counts a working-set entry as
private if and only if its shared flag is false or its share count is at
most one (stated as: the count equals the number of entries satisfying
that condition), and on the entry table
[{shared:false}, {shared:true, shareCount:1}, {shared:true, shareCount:3}]
the returned private page count is exactly 2. -/
theorem C2_uss_private_count :
    (∀ entries : List WorkingSetBlock,
      psutil_proc_memory_uss entries
        = (entries.filter
            (fun e => decide (e.shared = false ∨ e.shareCount ≤ 1))).length)
  ∧ psutil_proc_memory_uss
      [⟨false, 0⟩, ⟨true, 1⟩, ⟨true, 3⟩] = 2 := by
  constructor
  · intro entries
    simpa using uss_foldl_eq_filter entries 0
  · rfl

/-! ### Claim C1: liveness-check-on-ambiguity -/

/-- C1 counterexample: GetProcessTimes fails with the ambiguous code
ERROR_ACCESS_DENIED while the process is still alive (pidRunning is
true, so a liveness check would report it present).  The claim requires
the normalizer to issue a liveness check and, the process being alive,
return the literal classification AccessDenied; psutil_proc_times
instead returns NoSuchProcess, decided from the error code alone. -/
theorem C1_times_no_liveness_check :
    psutil_proc_times ⟨.ok (), none, ERROR_ACCESS_DENIED, true⟩
      = .error .noSuchProcess
  ∧ Outcome.noSuchProcess ≠ Outcome.accessDenied := by
  exact ⟨rfl, by decide⟩

/-- C1 amended: the osx procargs normalizer and the exe normalizer do
disambiguate through a liveness check (gone means NoSuchProcess, alive
means the literal classification of the code); but psutil_proc_times
classifies the ambiguous ERROR_ACCESS_DENIED from GetProcessTimes as
NoSuchProcess directly with no liveness check (its result is the same
whatever a liveness check would report), and the working-set normalizer
classifies STATUS_ACCESS_DENIED as AccessDenied directly, also
independently of liveness. -/
theorem C1_normalizers_amended :
    (∀ e, psutil_sysctl_procargs_error false e = .noSuchProcess)
  ∧ psutil_sysctl_procargs_error true EINVAL = .noSuchProcess
  ∧ psutil_sysctl_procargs_error true EIO = .accessDenied
  ∧ (∀ e, e ≠ EINVAL → e ≠ EIO →
      psutil_sysctl_procargs_error true e = .fatalOS e)
  ∧ (∀ s, psutil_proc_exe_error false s = .noSuchProcess)
  ∧ (∀ s, psutil_proc_exe_error true s = .fatalNT s)
  ∧ (∀ h v b, psutil_proc_times ⟨h, v, ERROR_ACCESS_DENIED, b⟩
      = psutil_proc_times ⟨h, v, ERROR_ACCESS_DENIED, true⟩)
  ∧ (∀ b, psutil_proc_times ⟨.ok (), none, ERROR_ACCESS_DENIED, b⟩
      = .error .noSuchProcess)
  ∧ (∀ b, psutil_GetProcWsetInformation_error b STATUS_ACCESS_DENIED
      = .accessDenied) := by
  refine ⟨fun e => rfl, rfl, rfl, fun e h1 h2 => ?_, fun s => rfl,
    fun s => rfl, fun h v b => rfl, fun b => rfl, fun b => rfl⟩
  simp [psutil_sysctl_procargs_error, h1, h2]

/-- C1 amended witness: the amended statement applied at concrete
inputs, discharging the two errno side conditions at errno 99. -/
theorem C1_normalizers_amended_witness :
    psutil_sysctl_procargs_error true 99 = .fatalOS 99
  ∧ psutil_sysctl_procargs_error false 99 = .noSuchProcess := by
  exact ⟨C1_normalizers_amended.2.2.2.1 99 (by decide) (by decide),
    C1_normalizers_amended.1 99⟩

/-! ### Per-process lifecycle operations (claims C5, C6, C7, C8) -/

/-- Native operations recorded in the call traces of the embedded
per-process operations. -/
inductive NativeCall where
  | openProcess
  | livenessCheck
  | terminateCall
  | waitCall
  | threadSnapshot
  deriving DecidableEq

/-- Environment of psutil_proc_kill (part_000, lines 110-138).
openCheckResult abstracts OpenProcess(PROCESS_TERMINATE) followed by the
external helper psutil_check_phandle; terminateOk is the TerminateProcess
result and terminateLastError its GetLastError() code on failure. -/
structure KillEnv where
  openCheckResult : Except Outcome Unit
  terminateOk : Bool
  terminateLastError : Nat

/-- psutil_proc_kill (part_000, lines 110-138): pid 0 is AccessDenied
before anything is opened; then the handle is opened and checked; then
TerminateProcess runs, and a failure is propagated unless GetLastError()
is ERROR_ACCESS_DENIED, which is suppressed (the process may already
have died) so the call still succeeds. -/
def psutil_proc_kill (env : KillEnv) (pid : Nat) :
    Except Outcome Unit × List NativeCall :=
  if pid = 0 then (.error .accessDenied, [])
  else
    match env.openCheckResult with
    | .error e => (.error e, [.openProcess])
    | .ok _ =>
      if env.terminateOk then (.ok (), [.openProcess, .terminateCall])
      else if env.terminateLastError ≠ ERROR_ACCESS_DENIED then
        (.error (.fatalOS env.terminateLastError),
         [.openProcess, .terminateCall])
      else (.ok (), [.openProcess, .terminateCall])

/-- Environment of psutil_proc_wait (part_000, lines 144-212): the
OpenProcess result with its GetLastError() code on failure, the
WaitForSingleObject return value with an errno for the WAIT_FAILED case,
and the GetExitCodeProcess result. -/
structure WaitEnv where
  openOk : Bool
  openLastError : Nat
  waitRet : Nat
  waitFailedError : Nat
  exitCodeOk : Bool
  exitCodeError : Nat
  exitCode : Nat

/-- psutil_proc_wait (part_000, lines 144-212): pid 0 is AccessDenied
immediately; an OpenProcess failure with ERROR_INVALID_PARAMETER (no such
process) returns the success value none instead of raising
NoSuchProcess; then WaitForSingleObject is classified WAIT_FAILED,
WAIT_TIMEOUT, WAIT_ABANDONED in that order, and otherwise
(WAIT_OBJECT_0) the exit code is fetched and returned. -/
def psutil_proc_wait (env : WaitEnv) (pid : Nat) :
    Except Outcome (Option Nat) × List NativeCall :=
  if pid = 0 then (.error .accessDenied, [])
  else if env.openOk = false then
    if env.openLastError = ERROR_INVALID_PARAMETER then
      (.ok none, [.openProcess])
    else (.error (.fatalOS env.openLastError), [.openProcess])
  else if env.waitRet = WAIT_FAILED then
    (.error (.fatalOS env.waitFailedError), [.openProcess, .waitCall])
  else if env.waitRet = WAIT_TIMEOUT then
    (.error .timeout, [.openProcess, .waitCall])
  else if env.waitRet = WAIT_ABANDONED then
    (.error .waitAbandoned, [.openProcess, .waitCall])
  else if env.exitCodeOk = false then
    (.error (.fatalOS env.exitCodeError), [.openProcess, .waitCall])
  else (.ok (some env.exitCode), [.openProcess, .waitCall])

/-- Environment of psutil_proc_threads (part_000, lines 574-676):
pidIsRunning is the psutil_pid_is_running result (1, 0 or -1, the error
already normalized as livenessError when -1), and walkResult abstracts
the Toolhelp32 thread-snapshot walk, on which no claim depends. -/
structure ThreadsEnv where
  pidIsRunning : Int
  livenessError : Outcome
  walkResult : Except Outcome (List (Nat × Nat × Nat))

/-- psutil_proc_threads (part_000, lines 574-676): pid 0 is AccessDenied
before the liveness check; a pid reported not running is NoSuchProcess;
otherwise the thread snapshot is walked. -/
def psutil_proc_threads (env : ThreadsEnv) (pid : Nat) :
    Except Outcome (List (Nat × Nat × Nat)) × List NativeCall :=
  if pid = 0 then (.error .accessDenied, [])
  else if env.pidIsRunning = 0 then
    (.error .noSuchProcess, [.livenessCheck])
  else if env.pidIsRunning = -1 then
    (.error env.livenessError, [.livenessCheck])
  else (env.walkResult, [.livenessCheck, .threadSnapshot])

/-! ### psutil_proc_exe and its sizing protocol (claims C8, C9) -/

/-- WIN_MAX_PATH times sizeof(wchar_t): 0x104 * 2, the initial
bufferSize of psutil_proc_exe. -/
def WIN_MAX_PATH_BYTES : Nat := 520

/-- NTFS_MAX_PATH times sizeof(wchar_t): 0x7FFF * 2, the doubling
ceiling maxBufferSize of psutil_proc_exe. -/
def NTFS_MAX_PATH_BYTES : Nat := 65534

/-- Environment of psutil_proc_exe (part_000, lines 272-367): query maps
the MaximumLength handed to NtQuerySystemInformation to the returned
NTSTATUS together with the ImageName.MaximumLength field after the call
(a USHORT, so it is reduced mod 65536 wherever the code reads it);
pidRunning is the psutil_pid_is_running liveness result. -/
structure ExeEnv where
  query : Nat → Nat × Nat
  pidRunning : Bool

/-- Doubling retry loop of psutil_proc_exe (the branch where the
required length was not stored, a WOW64 quirk): starting from iteration
k (bufferSize = 520 * 2 ^ k, first entered with k = 1 after doubling
once), hand the USHORT truncation of bufferSize to the query and repeat,
doubling each time, while the status is STATUS_INFO_LENGTH_MISMATCH and
bufferSize has not passed NTFS_MAX_PATH_BYTES.  Returns the final status
and the MaximumLength values handed to the native query. -/
def psutil_proc_exe_doubling (query : Nat → Nat × Nat) (k : Nat) :
    Nat × List Nat :=
  if h : (query (520 * 2 ^ k % 65536)).1 = STATUS_INFO_LENGTH_MISMATCH then
    if h2 : 520 * 2 ^ k ≤ NTFS_MAX_PATH_BYTES then
      let rest := psutil_proc_exe_doubling query (k + 1)
      (rest.1, 520 * 2 ^ k % 65536 :: rest.2)
    else ((query (520 * 2 ^ k % 65536)).1, [520 * 2 ^ k % 65536])
  else ((query (520 * 2 ^ k % 65536)).1, [520 * 2 ^ k % 65536])
termination_by 7 - k
decreasing_by
  have hk : k ≤ 6 := by
    by_contra hk
    push_neg at hk
    have h7 : (128 : Nat) ≤ 2 ^ k := by
      calc (128 : Nat) = 2 ^ 7 := by norm_num
        _ ≤ 2 ^ k := Nat.pow_le_pow_right (by norm_num) hk
    simp only [NTFS_MAX_PATH_BYTES] at h2
    omega
  omega

/-- psutil_proc_exe (part_000, lines 272-367): pid 0 is AccessDenied
immediately.  The first query runs with MaximumLength = 520.  On
STATUS_INFO_LENGTH_MISMATCH with the returned MaximumLength still at
most 520 (required length not stored), the doubling loop runs; on
STATUS_INFO_LENGTH_MISMATCH with a larger returned MaximumLength
(required length stored), exactly one retry runs with that reported
size, and a retry that still mismatches falls through to the failure
classification, with no further resizing.  A failing final status is
classified through the liveness check (psutil_proc_exe_error).
Returns the outcome and the trace of MaximumLength values handed to the
native query. -/
def psutil_proc_exe (env : ExeEnv) (pid : Nat) :
    Except Outcome Unit × List Nat :=
  if pid = 0 then (.error .accessDenied, [])
  else
    let firstCall := env.query 520
    let st1 := firstCall.1
    let outMax1 := firstCall.2 % 65536
    let afterSizing :=
      if st1 = STATUS_INFO_LENGTH_MISMATCH ∧ outMax1 ≤ 520 then
        let rest := psutil_proc_exe_doubling env.query 1
        (rest.1, 520 :: rest.2)
      else if st1 = STATUS_INFO_LENGTH_MISMATCH then
        ((env.query outMax1).1, [520, outMax1])
      else (st1, [520])
    if ntSuccess afterSizing.1 then (.ok (), afterSizing.2)
    else (.error (psutil_proc_exe_error env.pidRunning afterSizing.1),
          afterSizing.2)

/-! ### Working-set buffer-growth loop (claim C4) -/

/-- Absolute growth ceiling of psutil_GetProcWsetInformation:
256 * 1024 * 1024 bytes. -/
def WSET_CEILING : Nat := 268435456

/-- Environment of psutil_GetProcWsetInformation (part_000, lines
428-486): query maps a buffer size to the NTSTATUS returned by
NtQueryVirtualMemory(MemoryWorkingSetInformation); pidRunning is the
liveness result consulted by the failure classification. -/
structure WsetEnv where
  query : Nat → Nat
  pidRunning : Bool

/-- Retry loop of psutil_GetProcWsetInformation (part_000, lines
438-466): at iteration k the buffer size is 0x8000 * 2 ^ k (the loop is
entered with k = 0, bufferSize = 0x8000).  While the status is
STATUS_INFO_LENGTH_MISMATCH the size is doubled, except that a doubled
size above WSET_CEILING raises the RuntimeError before any further
query.  Returns the final status (or the ceiling error) and the list of
sizes for which the native query ran. -/
def psutil_GetProcWsetInformation_loop (query : Nat → Nat) (k : Nat) :
    Except Outcome Nat × List Nat :=
  let size := 32768 * 2 ^ k
  let st := query size
  if h : st = STATUS_INFO_LENGTH_MISMATCH then
    if h2 : WSET_CEILING < 32768 * 2 ^ (k + 1) then
      (.error .runtimeWsetTooLarge, [size])
    else
      let rest := psutil_GetProcWsetInformation_loop query (k + 1)
      (rest.1, size :: rest.2)
  else (.ok st, [size])
termination_by 14 - k
decreasing_by
  have hk : k ≤ 12 := by
    by_contra hk
    push_neg at hk
    have h7 : (16384 : Nat) ≤ 2 ^ (k + 1) := by
      calc (16384 : Nat) = 2 ^ 14 := by norm_num
        _ ≤ 2 ^ (k + 1) := Nat.pow_le_pow_right (by norm_num) (by omega)
    push_neg at h2
    simp only [WSET_CEILING] at h2
    omega
  omega

/-- psutil_GetProcWsetInformation (part_000, lines 428-486): run the
retry loop from bufferSize 0x8000; a loop that ends on the ceiling
propagates the RuntimeError, a loop that ends on a status classifies it
through ntSuccess and psutil_GetProcWsetInformation_error. -/
def psutil_GetProcWsetInformation (env : WsetEnv) :
    Except Outcome Unit × List Nat :=
  match psutil_GetProcWsetInformation_loop env.query 0 with
  | (.error e, tr) => (.error e, tr)
  | (.ok st, tr) =>
    if ntSuccess st then (.ok (), tr)
    else (.error (psutil_GetProcWsetInformation_error env.pidRunning st), tr)

/-! ### Claim C4: capped adaptive growth of the working-set query -/

/-- Helper: from any iteration k ≤ 13 the wset loop queries exactly the
sizes 32768 * 2 ^ (k + i) for i < n, for some n with 1 ≤ n and
k + n ≤ 14 (consecutive sizes double, and the loop runs finitely). -/
theorem wset_loop_trace_shape (query : Nat → Nat) (k : Nat) (hk : k ≤ 13) :
    ∃ n, 1 ≤ n ∧ k + n ≤ 14 ∧
      (psutil_GetProcWsetInformation_loop query k).2
        = (List.range n).map (fun i => 32768 * 2 ^ (k + i)) := by
  by_cases h : query (32768 * 2 ^ k) = STATUS_INFO_LENGTH_MISMATCH
  · by_cases h2 : WSET_CEILING < 32768 * 2 ^ (k + 1)
    · refine ⟨1, by omega, by omega, ?_⟩
      rw [psutil_GetProcWsetInformation_loop]
      simp [h, h2, List.range_succ]
    · have hk1 : k + 1 ≤ 13 := by
        by_contra hcon
        have hke : k = 13 := by omega
        subst hke
        simp only [WSET_CEILING] at h2
        norm_num at h2
      obtain ⟨n, hn1, hn2, hn3⟩ := wset_loop_trace_shape query (k + 1) hk1
      refine ⟨n + 1, by omega, by omega, ?_⟩
      rw [psutil_GetProcWsetInformation_loop]
      simp only [h, if_true, h2, if_false, dite_eq_ite, ite_true, ite_false]
      rw [hn3, List.range_succ_eq_map, List.map_cons, List.map_map]
      simp only [List.cons.injEq]
      constructor
      · simp
      · apply List.map_congr_left
        intro i hi
        have he : k + 1 + i = k + (i + 1) := by omega
        simp [Function.comp, he]
  · refine ⟨1, by omega, by omega, ?_⟩
    rw [psutil_GetProcWsetInformation_loop]
    simp [h, List.range_succ]
termination_by 14 - k
decreasing_by omega

/-- Helper: if every size draws the too-small status, the wset loop
started at k ≤ 13 ends with the ceiling RuntimeError. -/
theorem wset_loop_all_mismatch (query : Nat → Nat)
    (hall : ∀ s, query s = STATUS_INFO_LENGTH_MISMATCH) (k : Nat)
    (hk : k ≤ 13) :
    (psutil_GetProcWsetInformation_loop query k).1
      = .error .runtimeWsetTooLarge := by
  have h : query (32768 * 2 ^ k) = STATUS_INFO_LENGTH_MISMATCH :=
    hall (32768 * 2 ^ k)
  by_cases h2 : WSET_CEILING < 32768 * 2 ^ (k + 1)
  · rw [psutil_GetProcWsetInformation_loop]
    simp [h, h2]
  · have hk1 : k + 1 ≤ 13 := by
      by_contra hcon
      have hke : k = 13 := by omega
      subst hke
      simp only [WSET_CEILING] at h2
      norm_num at h2
    have ih := wset_loop_all_mismatch query hall (k + 1) hk1
    rw [psutil_GetProcWsetInformation_loop]
    simp only [h, if_true, h2, if_false, dite_eq_ite, ite_true, ite_false]
    exact ih
termination_by 14 - k
decreasing_by omega

/-- C4: the adaptive buffer-resize loop of the working-set query
terminates for every sequence of native responses.  Every size it hands
to the native query stays at or below the 256 MiB ceiling; the sizes
form the doubling sequence 0x8000 * 2 ^ i for i < n with 1 ≤ n ≤ 14
(so the loop never runs forever); and a query that reports too-small at
every size makes the loop return the fatal resource error instead of
retrying past the ceiling. -/
theorem C4_wset_growth_capped :
    (∀ query : Nat → Nat,
      ((psutil_GetProcWsetInformation_loop query 0).2.all
        (fun s => decide (s ≤ WSET_CEILING))) = true)
  ∧ (∀ query : Nat → Nat, ∃ n, 1 ≤ n ∧ n ≤ 14 ∧
      (psutil_GetProcWsetInformation_loop query 0).2
        = (List.range n).map (fun i => 32768 * 2 ^ i))
  ∧ (∀ query : Nat → Nat,
      (∀ s, query s = STATUS_INFO_LENGTH_MISMATCH) →
      (psutil_GetProcWsetInformation_loop query 0).1
        = .error .runtimeWsetTooLarge) := by
  have shape : ∀ query : Nat → Nat, ∃ n, 1 ≤ n ∧ n ≤ 14 ∧
      (psutil_GetProcWsetInformation_loop query 0).2
        = (List.range n).map (fun i => 32768 * 2 ^ i) := by
    intro query
    obtain ⟨n, hn1, hn2, hn3⟩ := wset_loop_trace_shape query 0 (by omega)
    exact ⟨n, hn1, by omega, by simpa using hn3⟩
  refine ⟨?_, shape, fun query hall => wset_loop_all_mismatch query hall 0 (by omega)⟩
  intro query
  obtain ⟨n, hn1, hn2, hn3⟩ := shape query
  rw [hn3, List.all_eq_true]
  intro s hs
  simp only [List.mem_map, List.mem_range] at hs
  obtain ⟨i, hi, rfl⟩ := hs
  have hpow : (2 : Nat) ^ i ≤ 2 ^ 13 :=
    Nat.pow_le_pow_right (by norm_num) (by omega)
  have : 32768 * 2 ^ i ≤ 32768 * 2 ^ 13 := Nat.mul_le_mul_left 32768 hpow
  simp only [WSET_CEILING, decide_eq_true_eq]
  omega

/-- C4 witness: the loop under a query that always reports too-small
ends with the fatal resource error, by the theorem applied at that
concrete query. -/
theorem C4_wset_growth_capped_witness :
    (psutil_GetProcWsetInformation_loop
      (fun _ => STATUS_INFO_LENGTH_MISMATCH) 0).1
      = .error .runtimeWsetTooLarge :=
  C4_wset_growth_capped.2.2 (fun _ => STATUS_INFO_LENGTH_MISMATCH)
    (fun _ => rfl)

/-! ### Claim C5: pid 0 fails immediately with AccessDenied -/

/-- C5: for ProcessId 0, each embedded per-process operation that
acquires a handle (kill, wait, threads; exe also guards although it
queries by pid) returns AccessDenied with an empty native-call trace: no
open attempt, no liveness check, no native query. -/
theorem C5_pid0_access_denied :
    (∀ env : KillEnv, psutil_proc_kill env 0 = (.error .accessDenied, []))
  ∧ (∀ env : WaitEnv, psutil_proc_wait env 0 = (.error .accessDenied, []))
  ∧ (∀ env : ThreadsEnv,
      psutil_proc_threads env 0 = (.error .accessDenied, []))
  ∧ (∀ env : ExeEnv, psutil_proc_exe env 0 = (.error .accessDenied, [])) :=
  ⟨fun _ => rfl, fun _ => rfl, fun _ => rfl, fun _ => rfl⟩

/-! ### Claim C6: kill-after-death is suppressed -/

/-- C6: when the handle opens and validates but TerminateProcess fails
with ERROR_ACCESS_DENIED (the process died between the liveness check
and the kill), psutil_proc_kill suppresses the code and succeeds
silently: the result is ok, neither an error nor NoSuchProcess. -/
theorem C6_kill_after_death_suppressed (env : KillEnv) (pid : Nat)
    (hpid : pid ≠ 0) (hopen : env.openCheckResult = .ok ())
    (hfail : env.terminateOk = false)
    (herr : env.terminateLastError = ERROR_ACCESS_DENIED) :
    psutil_proc_kill env pid = (.ok (), [.openProcess, .terminateCall]) := by
  simp [psutil_proc_kill, hpid, hopen, hfail, herr]

/-- C6 witness: the theorem applied at a concrete environment in which
TerminateProcess fails with ERROR_ACCESS_DENIED. -/
theorem C6_kill_after_death_witness :
    psutil_proc_kill ⟨.ok (), false, ERROR_ACCESS_DENIED⟩ 7
      = (.ok (), [.openProcess, .terminateCall]) :=
  C6_kill_after_death_suppressed ⟨.ok (), false, ERROR_ACCESS_DENIED⟩ 7
    (by decide) rfl rfl rfl

/-! ### Claim C7: wait-for-exit distinguishes its three outcomes -/

/-- C7: for an opened handle, WaitForSingleObject returning
WAIT_OBJECT_0 yields the exit code, WAIT_TIMEOUT yields the Timeout
outcome, WAIT_ABANDONED yields the distinct WaitAbandoned outcome, and
the two outcomes are never conflated. -/
theorem C7_wait_three_outcomes (env : WaitEnv) (pid : Nat)
    (hpid : pid ≠ 0) (hopen : env.openOk = true) :
    (env.waitRet = WAIT_OBJECT_0 → env.exitCodeOk = true →
      psutil_proc_wait env pid
        = (.ok (some env.exitCode), [.openProcess, .waitCall]))
  ∧ (env.waitRet = WAIT_TIMEOUT →
      psutil_proc_wait env pid = (.error .timeout, [.openProcess, .waitCall]))
  ∧ (env.waitRet = WAIT_ABANDONED →
      psutil_proc_wait env pid
        = (.error .waitAbandoned, [.openProcess, .waitCall]))
  ∧ Outcome.waitAbandoned ≠ Outcome.timeout := by
  refine ⟨fun hw hx => ?_, fun hw => ?_, fun hw => ?_, by decide⟩
  · simp [psutil_proc_wait, hpid, hopen, hw, hx,
      WAIT_OBJECT_0, WAIT_FAILED, WAIT_TIMEOUT, WAIT_ABANDONED]
  · simp [psutil_proc_wait, hpid, hopen, hw,
      WAIT_FAILED, WAIT_TIMEOUT]
  · simp [psutil_proc_wait, hpid, hopen, hw,
      WAIT_FAILED, WAIT_TIMEOUT, WAIT_ABANDONED]

/-- C7 witness: the theorem applied at two concrete environments, one
timing out and one exiting with code 42. -/
theorem C7_wait_three_outcomes_witness :
    psutil_proc_wait ⟨true, 0, WAIT_TIMEOUT, 0, true, 0, 0⟩ 7
      = (.error .timeout, [.openProcess, .waitCall])
  ∧ psutil_proc_wait ⟨true, 0, WAIT_OBJECT_0, 0, true, 0, 42⟩ 7
      = (.ok (some 42), [.openProcess, .waitCall]) :=
  ⟨(C7_wait_three_outcomes ⟨true, 0, WAIT_TIMEOUT, 0, true, 0, 0⟩ 7
      (by decide) rfl).2.1 rfl,
   (C7_wait_three_outcomes ⟨true, 0, WAIT_OBJECT_0, 0, true, 0, 42⟩ 7
      (by decide) rfl).1 rfl rfl⟩

/-! ### Claim C8: queries on a ProcessId not currently running -/

/-- Environment of psutil_proc_wait in which OpenProcess fails with
ERROR_INVALID_PARAMETER, the code Windows returns when no process with
that pid exists. -/
def waitEnvGone : WaitEnv := ⟨false, ERROR_INVALID_PARAMETER, 0, 0, true, 0, 0⟩

/-- C8 counterexample: for a ProcessId that does not exist,
psutil_proc_wait returns the success value none, not NoSuchProcess, so
not every attribute query returns NoSuchProcess for a pid that is not
running. -/
theorem C8_wait_returns_none_for_gone_pid :
    psutil_proc_wait waitEnvGone 1234 = (.ok none, [.openProcess])
  ∧ (Except.ok none : Except Outcome (Option Nat))
      ≠ .error .noSuchProcess :=
  ⟨rfl, fun h => Except.noConfusion h⟩

/-- C8 amended: an attribute query whose native call fails for a
ProcessId that is not running returns NoSuchProcess -- shown for the
osx procargs classification, the exe classification and the threads
query -- except wait-for-exit, which maps the no-such-process open
failure (ERROR_INVALID_PARAMETER) to the success value none instead. -/
theorem C8_gone_pid_amended :
    (∀ e, psutil_sysctl_procargs_error false e = .noSuchProcess)
  ∧ (∀ s, psutil_proc_exe_error false s = .noSuchProcess)
  ∧ (∀ (env : ThreadsEnv) (pid : Nat), pid ≠ 0 → env.pidIsRunning = 0 →
      (psutil_proc_threads env pid).1 = .error .noSuchProcess)
  ∧ (∀ (env : WaitEnv) (pid : Nat), pid ≠ 0 → env.openOk = false →
      env.openLastError = ERROR_INVALID_PARAMETER →
      (psutil_proc_wait env pid).1 = .ok none) := by
  refine ⟨fun e => rfl, fun s => rfl, fun env pid hpid hrun => ?_,
    fun env pid hpid hopen herr => ?_⟩
  · simp [psutil_proc_threads, hpid, hrun]
  · simp [psutil_proc_wait, hpid, hopen, herr]

/-- C8 amended witness: the amended statement applied at concrete
environments for the threads and wait conjuncts. -/
theorem C8_gone_pid_amended_witness :
    (psutil_proc_threads ⟨0, Outcome.noSuchProcess, .ok []⟩ 1234).1
      = .error .noSuchProcess
  ∧ (psutil_proc_wait waitEnvGone 1234).1 = .ok none :=
  ⟨C8_gone_pid_amended.2.2.1 ⟨0, Outcome.noSuchProcess, .ok []⟩ 1234
      (by decide) rfl,
   C8_gone_pid_amended.2.2.2 waitEnvGone 1234 (by decide) rfl rfl⟩

/-! ### Claim C9: exact-size retry and what follows it -/

/-- Environment in which the first exe query reports
STATUS_INFO_LENGTH_MISMATCH with required size 768 stored in
MaximumLength, and the directly-sized retry at 768 still reports
STATUS_INFO_LENGTH_MISMATCH. -/
def exeEnvRetryStillSmall : ExeEnv :=
  ⟨fun _ => (STATUS_INFO_LENGTH_MISMATCH, 768), true⟩

/-- C9 counterexample: when the directly-sized retry (at the reported
size 768) still reports too-small, psutil_proc_exe fails with the
normalized error; the only sizes ever handed to the native query are
520 and 768 -- the doubling strategy is never engaged (the doubled size
1040 is not queried), contradicting the claimed fallback to doubling. -/
theorem C9_no_doubling_fallback :
    psutil_proc_exe exeEnvRetryStillSmall 7
      = (.error (.fatalNT STATUS_INFO_LENGTH_MISMATCH), [520, 768])
  ∧ 1040 ∉ (psutil_proc_exe exeEnvRetryStillSmall 7).2 := by
  constructor
  · rfl
  · intro hmem
    rw [show (psutil_proc_exe exeEnvRetryStillSmall 7).2 = [520, 768]
      from rfl] at hmem
    simp at hmem

/-- C9 amended: on a first too-small response that stores a required
size above the current 520-byte buffer, the protocol retries exactly
once with exactly the reported size (trace [520, size], no doubling);
if that directly-sized retry still reports too-small the query fails
through the normalizer with the same trace, with no fallback to
doubling; the doubling strategy runs only when the first response does
not store a usable size (reported MaximumLength at most 520, the WOW64
quirk). -/
theorem C9_exe_sizing_amended :
    (∀ (env : ExeEnv) (pid r st2 m2 : Nat), pid ≠ 0 →
      env.query 520 = (STATUS_INFO_LENGTH_MISMATCH, r) →
      520 < r % 65536 →
      env.query (r % 65536) = (st2, m2) →
      ntSuccess st2 = true →
      psutil_proc_exe env pid = (.ok (), [520, r % 65536]))
  ∧ (∀ (env : ExeEnv) (pid r : Nat), pid ≠ 0 →
      env.query 520 = (STATUS_INFO_LENGTH_MISMATCH, r) →
      520 < r % 65536 →
      (env.query (r % 65536)).1 = STATUS_INFO_LENGTH_MISMATCH →
      psutil_proc_exe env pid
        = (.error (psutil_proc_exe_error env.pidRunning
            STATUS_INFO_LENGTH_MISMATCH), [520, r % 65536]))
  ∧ (∀ (env : ExeEnv) (pid r : Nat), pid ≠ 0 →
      env.query 520 = (STATUS_INFO_LENGTH_MISMATCH, r) →
      r % 65536 ≤ 520 →
      (psutil_proc_exe env pid).2
        = 520 :: (psutil_proc_exe_doubling env.query 1).2) := by
  refine ⟨fun env pid r st2 m2 hpid hq1 hr hq2 hok => ?_,
    fun env pid r hpid hq1 hr hq2 => ?_,
    fun env pid r hpid hq1 hr => ?_⟩
  · have hnr : ¬(r % 65536 ≤ 520) := by omega
    simp [psutil_proc_exe, hpid, hq1, hnr, hq2, hok]
  · have hnr : ¬(r % 65536 ≤ 520) := by omega
    have hns : ntSuccess STATUS_INFO_LENGTH_MISMATCH = false := by decide
    simp [psutil_proc_exe, hpid, hq1, hnr, hq2, hns]
  · have hns : ntSuccess STATUS_INFO_LENGTH_MISMATCH = false := by decide
    by_cases hd : ntSuccess (psutil_proc_exe_doubling env.query 1).1 <;>
      simp [psutil_proc_exe, hpid, hq1, hr, hd]

/-- C9 amended witness: the amended statement applied at a concrete
environment whose directly-sized retry at the reported size 768
succeeds: the trace is exactly [520, 768]. -/
theorem C9_exe_sizing_amended_witness :
    psutil_proc_exe
      ⟨fun n => if n = 520 then (STATUS_INFO_LENGTH_MISMATCH, 768)
        else (0, 768), true⟩ 7
      = (.ok (), [520, 768]) :=
  C9_exe_sizing_amended.1
    ⟨fun n => if n = 520 then (STATUS_INFO_LENGTH_MISMATCH, 768)
      else (0, 768), true⟩ 7 768 0 768
    (by decide) rfl (by decide) rfl rfl

/-! ### Claim C10: the macOS process-list enumerator retry loop -/

/-- Environment of psutil_get_proc_list (arch/osx/process_info.c, lines
29-97), indexed by loop round: probe is the size-probing
sysctl(KERN_PROC_ALL) call with a NULL buffer (errno on failure, the
reported size on success); fetch is the data-filling sysctl call on the
allocated buffer (errno on failure, the returned data size on success);
mallocOk tells whether malloc succeeds for a requested byte count in
that round. -/
structure ProcListEnv where
  probe : Nat → Except Nat Nat
  fetch : Nat → Except Nat Nat
  mallocOk : Nat → Nat → Bool

/-- Loop of psutil_get_proc_list, with lim counting the remaining
rounds (the source starts at lim = 8).  Each round: the size probe, any
failure of which is fatal at once; the allocation of size2 =
size + (size >> 3) when that exceeds size, falling back to
malloc(size) when the larger allocation fails; then the data fetch,
whose failure is fatal at once unless errno is ENOMEM, in which case
the next round runs.  A loop that exhausts lim reports the
could-not-collect-PIDs RuntimeError.  (The "procCount <= 0" test of the
source compares the pointer, not the count, and is dead code.)
Returns the outcome and the number of rounds executed; procListAllocOk
is the allocation step of one round. -/
def procListAllocOk (env : ProcListEnv) (r size : Nat) : Bool :=
  if size < size + size / 8 then
    env.mallocOk r (size + size / 8) || env.mallocOk r size
  else env.mallocOk r size

/-- Loop of psutil_get_proc_list, continued: the round structure. -/
def psutil_get_proc_list_loop (env : ProcListEnv) (r : Nat) :
    Nat → Except Outcome Nat × Nat
  | 0 => (.error .runtimeCollectPids, 0)
  | lim + 1 =>
    match env.probe r with
    | .error e => (.error (.fatalOS e), 1)
    | .ok size =>
      if procListAllocOk env r size = false then (.error .noMemory, 1)
      else
        match env.fetch r with
        | .error err =>
          if err ≠ ENOMEM then (.error (.fatalOS err), 1)
          else
            let rest := psutil_get_proc_list_loop env (r + 1) lim
            (rest.1, rest.2 + 1)
        | .ok retSize => (.ok retSize, 1)

/-- psutil_get_proc_list (arch/osx/process_info.c, lines 29-97): run the
probe-allocate-fetch loop for at most 8 rounds. -/
def psutil_get_proc_list (env : ProcListEnv) : Except Outcome Nat × Nat :=
  psutil_get_proc_list_loop env 0 8

/-- Helper: the loop never executes more rounds than lim allows. -/
theorem proc_list_loop_rounds_le (env : ProcListEnv) :
    ∀ lim r, (psutil_get_proc_list_loop env r lim).2 ≤ lim := by
  intro lim
  induction lim with
  | zero => intro r; simp [psutil_get_proc_list_loop]
  | succ lim ih =>
    intro r
    rw [psutil_get_proc_list_loop]
    split
    · simp
    · split
      · simp
      · split
        · split
          · simp
          · have h := ih (r + 1)
            simpa using Nat.succ_le_succ h
        · simp

/-- Helper: under probes that always succeed, allocations that always
succeed and fetches that always fail with ENOMEM, the loop runs all its
rounds and ends with the could-not-collect-PIDs error. -/
theorem proc_list_loop_all_enomem (env : ProcListEnv)
    (hprobe : ∀ i, ∃ s, env.probe i = .ok s)
    (hmalloc : ∀ i s, env.mallocOk i s = true)
    (hfetch : ∀ i, env.fetch i = .error ENOMEM) :
    ∀ lim r, psutil_get_proc_list_loop env r lim
      = (.error .runtimeCollectPids, lim) := by
  intro lim
  induction lim with
  | zero => intro r; simp [psutil_get_proc_list_loop]
  | succ lim ih =>
    intro r
    obtain ⟨s, hs⟩ := hprobe r
    rw [psutil_get_proc_list_loop, hs]
    simp [procListAllocOk, hmalloc, hfetch r, ih (r + 1)]

/-- Helper: a data-fetch failure with an errno other than ENOMEM ends
the loop immediately, whatever round it is reached in: exactly one more
round executes and the errno is propagated. -/
theorem proc_list_loop_stops_on_other_errno (env : ProcListEnv)
    (r lim s e : Nat) (hlim : 0 < lim) (hprobe : env.probe r = .ok s)
    (hmalloc : ∀ i sz, env.mallocOk i sz = true)
    (hfetch : env.fetch r = .error e) (he : e ≠ ENOMEM) :
    psutil_get_proc_list_loop env r lim = (.error (.fatalOS e), 1) := by
  obtain ⟨l, rfl⟩ : ∃ l, lim = l + 1 := ⟨lim - 1, by omega⟩
  rw [psutil_get_proc_list_loop, hprobe]
  simp [procListAllocOk, hmalloc, hfetch, he]

/-- C10: the enumerator loop performs at most 8 rounds; when the data
fetch fails with ENOMEM on every round it stops after the 8th round
with the could-not-collect-PIDs error instead of retrying further; and
a data-fetch failure with any errno other than ENOMEM ends the loop
immediately (one round) with that error. -/
theorem C10_proc_list_bounded_retries :
    (∀ env : ProcListEnv, (psutil_get_proc_list env).2 ≤ 8)
  ∧ (∀ env : ProcListEnv,
      (∀ i, ∃ s, env.probe i = .ok s) →
      (∀ i s, env.mallocOk i s = true) →
      (∀ i, env.fetch i = .error ENOMEM) →
      psutil_get_proc_list env = (.error .runtimeCollectPids, 8))
  ∧ (∀ (env : ProcListEnv) (r lim s e : Nat), 0 < lim →
      env.probe r = .ok s → (∀ i sz, env.mallocOk i sz = true) →
      env.fetch r = .error e → e ≠ ENOMEM →
      psutil_get_proc_list_loop env r lim = (.error (.fatalOS e), 1)) :=
  ⟨fun env => proc_list_loop_rounds_le env 8 0,
   fun env hp hm hf => proc_list_loop_all_enomem env hp hm hf 8 0,
   fun env r lim s e hlim hp hm hf he =>
     proc_list_loop_stops_on_other_errno env r lim s e hlim hp hm hf he⟩

/-- C10 witness: the theorem applied at two concrete environments, one
whose fetch always fails with ENOMEM (the loop runs its 8 rounds and
reports the collection error) and one whose fetch fails with errno 1
(the loop stops after one round). -/
theorem C10_proc_list_bounded_retries_witness :
    psutil_get_proc_list
      ⟨fun _ => .ok 100, fun _ => .error ENOMEM, fun _ _ => true⟩
      = (.error .runtimeCollectPids, 8)
  ∧ psutil_get_proc_list_loop
      ⟨fun _ => .ok 100, fun _ => .error 1, fun _ _ => true⟩ 0 8
      = (.error (.fatalOS 1), 1) :=
  ⟨C10_proc_list_bounded_retries.2.1
      ⟨fun _ => .ok 100, fun _ => .error ENOMEM, fun _ _ => true⟩
      (fun _ => ⟨100, rfl⟩) (fun _ _ => rfl) (fun _ => rfl),
   C10_proc_list_bounded_retries.2.2
      ⟨fun _ => .ok 100, fun _ => .error 1, fun _ _ => true⟩ 0 8 100 1
      (by omega) rfl (fun _ _ => rfl) rfl (by decide)⟩

/-! ### Packed argv/env buffer decoding (claim C3) -/

/-- Byte buffer abstraction: a total function from index to byte value.
Concrete buffers come from lists, reading 0 beyond the list end (the
list covers the declared length; what the code might touch beyond it is
unspecified memory, modelled as 0). -/
def bufOf (l : List Nat) : Nat → Nat := fun i => l.getD i 0

/-- The leading int of a KERN_PROCARGS2 block: the four bytes the code
memcpy-s into the int nargs, little endian, read as a signed 32-bit
value. -/
def nargsOf (buf : Nat → Nat) : Int :=
  if buf 0 + 256 * buf 1 + 65536 * buf 2 + 16777216 * buf 3 < 2147483648
  then (buf 0 + 256 * buf 1 + 65536 * buf 2 + 16777216 * buf 3 : Int)
  else (buf 0 + 256 * buf 1 + 65536 * buf 2 + 16777216 * buf 3 : Int)
    - 4294967296

/-- strlen from index start: the distance to the first NUL at or after
start.  The C strlen is not bounded by the buffer end; the existence
witness h stands for the NUL byte the scan eventually reaches. -/
def strlenFrom (buf : Nat → Nat) (start : Nat)
    (h : ∃ k, buf (start + k) = 0) : Nat :=
  Nat.find h

/-- Indices read by that strlen: every index from start up to and
including the NUL found. -/
def strlenReads (buf : Nat → Nat) (start : Nat)
    (h : ∃ k, buf (start + k) = 0) : List Nat :=
  (List.range (strlenFrom buf start h + 1)).map (fun k => start + k)

/-- Skip-leading-NULs loop shared by psutil_proc_cmdline and
psutil_proc_environ: for (; arg_ptr < arg_end; arg_ptr++) stop at the
first byte that is not NUL.  The fuel d counts arg_end - p, so running
out of fuel is exactly failing the arg_ptr < arg_end bound.  Returns
the final pointer and the indices read. -/
def skipNulsAux (buf : Nat → Nat) : Nat → Nat → Nat × List Nat
  | 0, p => (p, [])
  | d + 1, p =>
    if buf p ≠ 0 then (p, [p])
    else
      let rest := skipNulsAux buf d (p + 1)
      (rest.1, p :: rest.2)

/-- skipNulsAux entered with the loop bound arg_end. -/
def skipNuls (buf : Nat → Nat) (argEnd p : Nat) : Nat × List Nat :=
  skipNulsAux buf (argEnd - p) p

/-- Slice of the buffer from index i (inclusive) to j (exclusive): the
bytes of one emitted field (when the C decodes the field text it
re-reads exactly these indices plus the NUL at j, indices it already
scanned). -/
def bytesBetween (buf : Nat → Nat) (i j : Nat) : List Nat :=
  (List.range (j - i)).map (fun k => buf (i + k))

/-- Count-driven walk of psutil_proc_cmdline (process_info.c, lines
219-232): while (arg_ptr < arg_end && nargs > 0), each NUL read ends a
field, which is emitted, and decrements nargs.  The fuel d counts
arg_end - p.  Returns the fields and the indices read. -/
def scanArgsAux (buf : Nat → Nat) :
    Nat → Nat → Nat → Int → List (List Nat) × List Nat
  | 0, _, _, _ => ([], [])
  | d + 1, p, currArg, nargs =>
    if 0 < nargs then
      if buf p = 0 then
        let rest := scanArgsAux buf d (p + 1) (p + 1) (nargs - 1)
        (bytesBetween buf currArg p :: rest.1, p :: rest.2)
      else
        let rest := scanArgsAux buf d (p + 1) currArg nargs
        (rest.1, p :: rest.2)
    else ([], [])

/-- scanArgsAux entered with the loop bound arg_end. -/
def scanArgs (buf : Nat → Nat) (argEnd p currArg : Nat) (nargs : Int) :
    List (List Nat) × List Nat :=
  scanArgsAux buf (argEnd - p) p currArg nargs

/-- psutil_proc_cmdline (process_info.c, lines 163-243), decoding part:
read nargs from bytes 0..3, skip the executable path with strlen (a
scan not bounded by arg_end), return the empty vector when the pointer
lands exactly on arg_end, otherwise skip NUL padding and run the
count-driven walk.  Returns the decoded fields and the buffer indices
read. -/
def psutil_proc_cmdline (buf : Nat → Nat) (argmax : Nat)
    (h : ∃ k, buf (4 + k) = 0) : List (List Nat) × List Nat :=
  let len := strlenFrom buf 4 h
  let headReads := [0, 1, 2, 3] ++ strlenReads buf 4 h
  if 4 + len + 1 = argmax then ([], headReads)
  else
    let pads := skipNuls buf argmax (4 + len + 1)
    let walk := scanArgs buf argmax pads.1 pads.1 (nargsOf buf)
    (walk.1, headReads ++ pads.2 ++ walk.2)

/-- memchr scan: the fuel d is the byte count n handed to memchr; stop
at the first NUL (reading up to and including it) or after n bytes.
Returns the index found, if any, and the indices read. -/
def memchrIdxAux (buf : Nat → Nat) : Nat → Nat → Option Nat × List Nat
  | 0, _ => (none, [])
  | d + 1, p =>
    if buf p = 0 then (some p, [p])
    else
      let rest := memchrIdxAux buf d (p + 1)
      (rest.1, p :: rest.2)

/-- memchr(ptr, 0, stop - p) over indices [p, stop). -/
def memchrIdx (buf : Nat → Nat) (p stop : Nat) : Option Nat × List Nat :=
  memchrIdxAux buf (stop - p) p

/-- Count-driven walk of psutil_proc_environ (process_info.c, lines
308-311): while (arg_ptr < arg_end && nargs > 0), each NUL read
decrements nargs; nothing is emitted.  The fuel d counts arg_end - p. -/
def skipArgsCountAux (buf : Nat → Nat) : Nat → Nat → Int → Nat × List Nat
  | 0, p, _ => (p, [])
  | d + 1, p, nargs =>
    if 0 < nargs then
      let rest :=
        if buf p = 0 then skipArgsCountAux buf d (p + 1) (nargs - 1)
        else skipArgsCountAux buf d (p + 1) nargs
      (rest.1, p :: rest.2)
    else (p, [])

/-- skipArgsCountAux entered with the loop bound arg_end. -/
def skipArgsCount (buf : Nat → Nat) (argEnd p : Nat) (nargs : Int) :
    Nat × List Nat :=
  skipArgsCountAux buf (argEnd - p) p nargs

/-- Helper: a NUL found by the memchr scan lies within the scanned
range. -/
theorem memchrIdxAux_fst_some (buf : Nat → Nat) :
    ∀ d p s, (memchrIdxAux buf d p).1 = some s → p ≤ s ∧ s < p + d := by
  intro d
  induction d with
  | zero => intro p s hs; simp [memchrIdxAux] at hs
  | succ d ih =>
    intro p s hs
    rw [memchrIdxAux] at hs
    by_cases hb : buf p = 0
    · simp [hb] at hs
      omega
    · simp [hb] at hs
      have := ih (p + 1) s hs
      omega

/-- Helper: the same bound stated for memchrIdx. -/
theorem memchrIdx_fst_some (buf : Nat → Nat) (p stop s : Nat)
    (h : (memchrIdx buf p stop).1 = some s) : p ≤ s ∧ s < p + (stop - p) :=
  memchrIdxAux_fst_some buf (stop - p) p s h

/-- Final environment-block loop of psutil_proc_environ (process_info.c,
lines 322-328): while (*arg_ptr != 0 && arg_ptr < arg_end) -- note that
the byte at arg_ptr is read before the bounds test -- find the next NUL
with memchr(arg_ptr + 1, 0, arg_end - arg_ptr), a count that lets the
scan touch the index arg_end itself, and jump past the NUL found; a
scan with no NUL breaks out.  Returns the final pointer and the indices
read; the condition read of the byte at arg_ptr is recorded even when
arg_ptr is at arg_end. -/
def envBlockWalk (buf : Nat → Nat) (argEnd p : Nat) : Nat × List Nat :=
  if _h : buf p ≠ 0 ∧ p < argEnd then
    match hm : (memchrIdx buf (p + 1) (argEnd + 1)).1 with
    | none => (p, p :: (memchrIdx buf (p + 1) (argEnd + 1)).2)
    | some s =>
      let rest := envBlockWalk buf argEnd (s + 1)
      (rest.1, p :: (memchrIdx buf (p + 1) (argEnd + 1)).2 ++ rest.2)
  else (p, [p])
termination_by argEnd + 2 - p
decreasing_by
  have hb := memchrIdx_fst_some buf (p + 1) (argEnd + 1) s hm
  omega

/-- psutil_proc_environ (process_info.c, lines 254-356), decoding part:
read nargs, skip the executable path with the bounded
memchr(arg_ptr, 0, arg_end - arg_ptr), take the empty-string path when
no NUL is found (or defensively at arg_end), otherwise skip NUL
padding, run the count-driven walk, and copy the environment block up
to the final pointer.  The returned block models procenv as handed to
the text decoder: the bytes from env_start up to the final pointer plus
one final byte; that byte is the calloc zero when the walk ended inside
the buffer, and is modelled as 0 also in the truncated case, where the
C reads it beyond its zero-size allocation.  Returns the block (none on
the empty path) and the kernel-buffer indices read. -/
def psutil_proc_environ (buf : Nat → Nat) (argmax : Nat) :
    Option (List Nat) × List Nat :=
  let exeScan := memchrIdx buf 4 argmax
  let headReads := [0, 1, 2, 3] ++ exeScan.2
  match exeScan.1 with
  | none => (none, headReads)
  | some m =>
    if m = argmax then (none, headReads)
    else
      let pads := skipNuls buf argmax m
      let cnt := skipArgsCount buf argmax pads.1 (nargsOf buf)
      let ewalk := envBlockWalk buf argmax cnt.1
      (some (bytesBetween buf cnt.1 ewalk.1 ++ [0]),
       headReads ++ pads.2 ++ cnt.2 ++ ewalk.2)

/-- KERN_PROCARGS2 block declaring argc = 5 with the executable path
consisting of the byte 101 and only two NUL-terminated fields (97 and
98) before the declared end argmax = 10. -/
def procargsTruncated : List Nat := [5, 0, 0, 0, 101, 0, 97, 0, 98, 0]

/-- The executable field of procargsTruncated is NUL-terminated. -/
theorem procargsTruncated_exe_nul :
    ∃ k, bufOf procargsTruncated (4 + k) = 0 := ⟨1, rfl⟩

/-- C3, evaluated at the truncated buffer (argc = 5, two fields before
the declared end 10): the command-line decoder returns exactly the two
fields present and reads only indices below 10; the environment
decoder, however, reads index 10 -- the byte exactly at the declared
buffer end -- because its final loop tests *arg_ptr before its bounds
check (and it reads nothing beyond that byte). -/
theorem C3_environ_reads_declared_end :
    (psutil_proc_cmdline (bufOf procargsTruncated) 10
        procargsTruncated_exe_nul).1 = [[97], [98]]
  ∧ ((psutil_proc_cmdline (bufOf procargsTruncated) 10
        procargsTruncated_exe_nul).2.all (fun i => decide (i < 10))) = true
  ∧ 10 ∈ (psutil_proc_environ (bufOf procargsTruncated) 10).2
  ∧ ((psutil_proc_environ (bufOf procargsTruncated) 10).2.all
        (fun i => decide (i ≤ 10))) = true := by
  have hfind : strlenFrom (bufOf procargsTruncated) 4
      procargsTruncated_exe_nul = 1 := by
    rw [strlenFrom, Nat.find_eq_iff]
    refine ⟨rfl, ?_⟩
    intro m hm
    have hm0 : m = 0 := by omega
    subst hm0
    decide
  have henv : psutil_proc_environ (bufOf procargsTruncated) 10
      = (some [0], [0, 1, 2, 3] ++ [4, 5] ++ [5, 6] ++ [6, 7, 8, 9] ++ [10])
      := by
    have h1 : memchrIdx (bufOf procargsTruncated) 4 10 = (some 5, [4, 5]) :=
      by decide
    have h2 : skipNuls (bufOf procargsTruncated) 10 5 = (6, [5, 6]) :=
      by decide
    have h3 : skipArgsCount (bufOf procargsTruncated) 10 6
        (nargsOf (bufOf procargsTruncated)) = (10, [6, 7, 8, 9]) := by decide
    have hwalk : envBlockWalk (bufOf procargsTruncated) 10 10 = (10, [10])
        := by
      rw [envBlockWalk]
      norm_num
    simp [psutil_proc_environ, h1, h2, h3, hwalk, bytesBetween]
  refine ⟨?_, ?_, ?_, ?_⟩
  · simp only [psutil_proc_cmdline, strlenReads, hfind]
    decide
  · simp only [psutil_proc_cmdline, strlenReads, hfind]
    decide
  · rw [henv]
    decide
  · rw [henv]
    decide

end PsutilSpec
